import Mathlib

/-!
Shallow embedding of the credential-rotation / quota-tracking core of
google-search-mcp (src/global-config.ts, src/config.ts, src/tools/search.ts).

Modelling conventions:
* Machine state is `GlobalConfig` (the in-memory `this.config` of
  `GlobalConfigManager`).
* The current UTC calendar date (`new Date().toISOString().split('T')[0]`)
  is passed explicitly as a `today : String` parameter; the save timestamp
  (`new Date().toISOString()`) as `now : String`.
* File persistence is modelled by returning, alongside the new state, the
  list of configs written to disk (in order).  `saveConfig` writes exactly
  one snapshot.
* JavaScript string falsiness (`'' || x`) is modelled explicitly; `trim`
  is modelled by `jsTrim`.
-/

/-- Model of JavaScript `String.prototype.trim` (strip leading and
trailing whitespace), defined over the character list so that it is
kernel-computable. -/
def jsTrim (s : String) : String :=
  String.mk (((s.data.dropWhile Char.isWhitespace).reverse.dropWhile
    Char.isWhitespace).reverse)

/-- `ApiKeyState` of src/global-config.ts (lines 4-12). -/
structure ApiKeyState where
  id : String
  apiKey : String
  searchEngineId : String
  dailyUsage : Nat
  dailyLimit : Nat
  lastReset : String
  isActive : Bool
deriving Repr, DecidableEq

/-- `GlobalConfig` of src/global-config.ts (lines 14-18). -/
structure GlobalConfig where
  keys : List ApiKeyState
  lastUpdated : String
  version : String
deriving Repr, DecidableEq

namespace GCM

/-- `saveConfig` (global-config.ts lines 70-78): stamps `lastUpdated := now`
and writes the whole config to disk.  The write is recorded in the second
component. -/
def saveConfig (now : String) (c : GlobalConfig) : GlobalConfig × List GlobalConfig :=
  let c2 := { c with lastUpdated := now }
  (c2, [c2])

/-- The per-record body of the loop in `resetDailyUsageIfNeeded`
(global-config.ts lines 142-150): a record whose `lastReset` differs from
today gets `dailyUsage := 0`, `lastReset := today`, `isActive := true`. -/
def resetKey (today : String) (k : ApiKeyState) : ApiKeyState :=
  if k.lastReset = today then k
  else { k with dailyUsage := 0, lastReset := today, isActive := true }

/-- `resetDailyUsageIfNeeded` (global-config.ts lines 138-155): applies
`resetKey` to every record; if any record changed (`hasChanges`, i.e. some
record had a stale `lastReset`) the config is saved. -/
def resetDailyUsageIfNeeded (today now : String) (c : GlobalConfig) :
    GlobalConfig × List GlobalConfig :=
  let keys2 := c.keys.map (resetKey today)
  if c.keys.all (fun k => decide (k.lastReset = today)) then
    ({ c with keys := keys2 }, [])
  else
    saveConfig now { c with keys := keys2 }

/-- Eligibility test of the selection loop (global-config.ts line 104):
`key.isActive && key.dailyUsage < key.dailyLimit`. -/
def eligible (k : ApiKeyState) : Bool :=
  k.isActive && decide (k.dailyUsage < k.dailyLimit)

/-- `getAvailableKey` (global-config.ts lines 99-110): applies the daily
reset, then returns the first record passing `eligible`, or `none`. -/
def getAvailableKey (today now : String) (c : GlobalConfig) :
    (GlobalConfig × List GlobalConfig) × Option ApiKeyState :=
  let r := resetDailyUsageIfNeeded today now c
  (r, r.1.keys.find? eligible)

/-- Updates the first element satisfying `p` by `f`; models the JavaScript
pattern `const key = keys.find(...); if (key) mutate key`. -/
def updateFirst (p : ApiKeyState → Bool) (f : ApiKeyState → ApiKeyState) :
    List ApiKeyState → List ApiKeyState
  | [] => []
  | k :: ks => if p k then f k :: ks else k :: updateFirst p f ks

/-- `incrementUsage` (global-config.ts lines 112-119): finds the record by
id; if found, increments its `dailyUsage` by 1 and saves; otherwise no-op. -/
def incrementUsage (keyId now : String) (c : GlobalConfig) :
    GlobalConfig × List GlobalConfig :=
  match c.keys.find? (fun k => decide (k.id = keyId)) with
  | some _ =>
      let keys2 := updateFirst (fun k => decide (k.id = keyId))
        (fun k => { k with dailyUsage := k.dailyUsage + 1 }) c.keys
      saveConfig now { c with keys := keys2 }
  | none => (c, [])

/-- `disableKey` (global-config.ts lines 157-164): finds the record by id;
if found, sets `isActive := false` and saves; otherwise no-op.  The `reason`
argument is only logged and does not influence the state. -/
def disableKey (keyId now : String) (c : GlobalConfig) :
    GlobalConfig × List GlobalConfig :=
  match c.keys.find? (fun k => decide (k.id = keyId)) with
  | some _ =>
      let keys2 := updateFirst (fun k => decide (k.id = keyId))
        (fun k => { k with isActive := false }) c.keys
      saveConfig now { c with keys := keys2 }
  | none => (c, [])

/-- One line of `keysStatus` (global-config.ts lines 127-133). -/
structure KeyStatus where
  id : String
  used : Nat
  limit : Nat
  remaining : Int
  active : Bool
deriving Repr, DecidableEq

/-- Return value of `getQuotaStatus` (global-config.ts line 121). -/
structure QuotaStatus where
  totalUsed : Nat
  totalLimit : Nat
  keysStatus : List KeyStatus
deriving Repr, DecidableEq

/-- The per-record view built at global-config.ts lines 127-133;
`remaining = dailyLimit - dailyUsage` is computed in `Int` since the
JavaScript subtraction may go negative. -/
def keyStatusOf (k : ApiKeyState) : KeyStatus :=
  { id := k.id
    used := k.dailyUsage
    limit := k.dailyLimit
    remaining := (k.dailyLimit : Int) - (k.dailyUsage : Int)
    active := k.isActive }

/-- `getQuotaStatus` (global-config.ts lines 121-136): applies the daily
reset, then returns the totals (the source folds with `reduce`, modelled by
`List.foldl`) and the per-record view. -/
def getQuotaStatus (today now : String) (c : GlobalConfig) :
    (GlobalConfig × List GlobalConfig) × QuotaStatus :=
  let r := resetDailyUsageIfNeeded today now c
  (r,
    { totalUsed := r.1.keys.foldl (fun s k => s + k.dailyUsage) 0
      totalLimit := r.1.keys.foldl (fun s k => s + k.dailyLimit) 0
      keysStatus := r.1.keys.map keyStatusOf })

/-- The pairing `searchEngineIds[i]?.trim() || searchEngineIds[0]?.trim() || ''`
of global-config.ts line 87: the trimmed positional scope id if present and
nonempty, else the trimmed first scope id if present and nonempty, else the
empty string (JavaScript `||` treats the empty string as falsy). -/
def scopeFor (searchEngineIds : List String) (i : Nat) : String :=
  let p := ((searchEngineIds.get? i).map jsTrim).getD ""
  if p = "" then ((searchEngineIds.get? 0).map jsTrim).getD "" else p

/-- `setupKeys` (global-config.ts lines 80-97): discards all existing
records, creates one record per entry of `apiKeys` with sequential ids
`key_1`, `key_2`, ..., trimmed secret, scope id per `scopeFor`, fresh
quota fields, and saves. -/
def setupKeys (apiKeys searchEngineIds : List String) (today now : String)
    (c : GlobalConfig) : GlobalConfig × List GlobalConfig :=
  let keys := (List.range apiKeys.length).map fun i =>
    { id := "key_" ++ toString (i + 1)
      apiKey := jsTrim ((apiKeys.get? i).getD "")
      searchEngineId := scopeFor searchEngineIds i
      dailyUsage := 0
      dailyLimit := 100
      lastReset := today
      isActive := true : ApiKeyState }
  saveConfig now { c with keys := keys }

/-- Parsed shape of the persisted file: the `version` field may be absent
(`none`), as in pre-migration layouts. -/
structure RawConfig where
  keys : List ApiKeyState
  lastUpdated : String
  version : Option String
deriving Repr, DecidableEq

/-- What `loadConfig` finds on disk: no file, an unparsable file, or a
parsed JSON object. -/
inductive FileContent where
  | absent
  | unparsable
  | parsed (raw : RawConfig)
deriving Repr, DecidableEq

/-- `migrateIfNeeded` (global-config.ts lines 63-68): if the version field
is missing (JavaScript-falsy: absent or empty), stamps `"1.0.0"` and saves
immediately; otherwise keeps the parsed config and writes nothing. -/
def migrateIfNeeded (now : String) (raw : RawConfig) :
    GlobalConfig × List GlobalConfig :=
  match raw.version with
  | none =>
      saveConfig now { keys := raw.keys, lastUpdated := raw.lastUpdated, version := "1.0.0" }
  | some v =>
      if v = "" then
        saveConfig now { keys := raw.keys, lastUpdated := raw.lastUpdated, version := "1.0.0" }
      else
        ({ keys := raw.keys, lastUpdated := raw.lastUpdated, version := v }, [])

/-- `loadConfig` (global-config.ts lines 30-61): absent file or parse error
initializes an empty store with version `"1.0.0"` and writes nothing; a
parsed file goes through `migrateIfNeeded` then `resetDailyUsageIfNeeded`.
Total: never fails the caller. -/
def loadConfig (file : FileContent) (today now : String) :
    GlobalConfig × List GlobalConfig :=
  match file with
  | .absent => ({ keys := [], lastUpdated := now, version := "1.0.0" }, [])
  | .unparsable => ({ keys := [], lastUpdated := now, version := "1.0.0" }, [])
  | .parsed raw =>
      let r1 := migrateIfNeeded now raw
      let r2 := resetDailyUsageIfNeeded today now r1.1
      (r2.1, r1.2 ++ r2.2)

end GCM

/-- `GoogleApiKey` of src/config.ts (lines 3-11): the value type handed to
the search tool, distinct from the store's `ApiKeyState`. -/
structure GoogleApiKey where
  id : String
  apiKey : String
  searchEngineId : String
  dailyUsage : Nat
  dailyLimit : Nat
  lastReset : String
  isActive : Bool
deriving Repr, DecidableEq

namespace GSC

/-- The fresh object literal built at src/config.ts lines 40-48: a
field-by-field copy of the selected store record into a new value. -/
def copyKey (k : ApiKeyState) : GoogleApiKey :=
  { id := k.id
    apiKey := k.apiKey
    searchEngineId := k.searchEngineId
    dailyUsage := k.dailyUsage
    dailyLimit := k.dailyLimit
    lastReset := k.lastReset
    isActive := k.isActive }

/-- Result of `GoogleSearchConfig.getAvailableKey`: the store after the
call, the writes it performed, and the value returned to the caller. -/
structure SelectorResult where
  store : GlobalConfig
  writes : List GlobalConfig
  returned : Option GoogleApiKey
deriving Repr, DecidableEq

/-- `GoogleSearchConfig.getAvailableKey` (src/config.ts lines 36-49):
delegates to the store's `getAvailableKey` and, when a record is selected,
returns a fresh copy of its fields (never the store's record itself). -/
def getAvailableKey (today now : String) (c : GlobalConfig) : SelectorResult :=
  let r := GCM.getAvailableKey today now c
  { store := r.1.1, writes := r.1.2, returned := r.2.map copyKey }

/-- The caller mutating the value it received: since src/config.ts lines
40-48 return a fresh object (not a reference into `this.config.keys`),
a caller-side field update acts on the returned value alone and the store
component is untouched. -/
def mutateReturned (f : GoogleApiKey → GoogleApiKey) (r : SelectorResult) :
    SelectorResult :=
  { r with returned := r.returned.map f }

end GSC

namespace GCM

/-- A store operation performed within one calendar day (the shared `today`
is supplied by `applyOp`); each operation carries its own save timestamp. -/
inductive StoreOp where
  | select (now : String)
  | record (id now : String)
  | deactivate (id reason now : String)
  | snapshot (now : String)
deriving Repr, DecidableEq

/-- State effect of one store operation at date `today`. -/
def applyOp (today : String) (c : GlobalConfig) : StoreOp → GlobalConfig
  | .select now => (getAvailableKey today now c).1.1
  | .record id now => (incrementUsage id now c).1
  | .deactivate id _ now => (disableKey id now c).1
  | .snapshot now => (getQuotaStatus today now c).1.1

/-- State after a sequence of store operations, all at date `today`. -/
def applyOps (today : String) (ops : List StoreOp) (c : GlobalConfig) : GlobalConfig :=
  ops.foldl (applyOp today) c

/-- The failure path of the search tool's `execute`
(src/tools/search.ts lines 82-174), run entirely at date `today`:
it acquires a key (line 86); if none, the function throws its own
quota-exhausted `Error` (line 88), which carries no numeric `code`; if a key
was acquired, the external call fails with `extCode` (`error.code` in the
catch at line 151).  The catch block deactivates the first available key
when `extCode` is 403 (lines 154-159) and always builds the error payload
with `getQuotaStatus` (line 167).  `incrementUsage` (line 124) is never
reached on a failure.  Returns the final store state together with the key
acquired at line 86. -/
def executeFailure (extCode : Option Int) (today now : String) (c : GlobalConfig) :
    GlobalConfig × Option ApiKeyState :=
  let r := getAvailableKey today now c
  match r.2 with
  | none => ((getQuotaStatus today now r.1.1).1.1, none)
  | some k =>
      if extCode = some 403 then
        let r2 := getAvailableKey today now r.1.1
        match r2.2 with
        | some k2 => ((getQuotaStatus today now (disableKey k2.id now r2.1.1).1).1.1, some k)
        | none => ((getQuotaStatus today now r2.1.1).1.1, some k)
      else ((getQuotaStatus today now r.1.1).1.1, some k)

end GCM

namespace SpecSide

/-- The scope-id pairing rule in the words of the (amended) specification:
record `i` receives the trimmed scope id at position `i` when that is
nonempty; otherwise the trimmed first scope id when that is nonempty;
otherwise the empty string. -/
def specScopeFor (scopeIds : List String) (i : Nat) : String :=
  match scopeIds.get? i with
  | some s => if jsTrim s ≠ "" then jsTrim s else firstScope scopeIds
  | none => firstScope scopeIds
where
  /-- The trimmed first scope id, or `""` when none exists or it trims to
  empty. -/
  firstScope (scopeIds : List String) : String :=
    match scopeIds.get? 0 with
    | some s => if jsTrim s ≠ "" then jsTrim s else ""
    | none => ""

end SpecSide

namespace GCM

theorem resetKey_id (t : String) (k : ApiKeyState) : (resetKey t k).id = k.id := by
  unfold resetKey; split <;> rfl

theorem resetKey_apiKey (t : String) (k : ApiKeyState) : (resetKey t k).apiKey = k.apiKey := by
  unfold resetKey; split <;> rfl

theorem resetKey_searchEngineId (t : String) (k : ApiKeyState) :
    (resetKey t k).searchEngineId = k.searchEngineId := by
  unfold resetKey; split <;> rfl

theorem resetKey_dailyLimit (t : String) (k : ApiKeyState) :
    (resetKey t k).dailyLimit = k.dailyLimit := by
  unfold resetKey; split <;> rfl

theorem resetKey_lastReset (t : String) (k : ApiKeyState) : (resetKey t k).lastReset = t := by
  unfold resetKey; split
  · assumption
  · rfl

theorem resetKey_eq_self (t : String) (k : ApiKeyState) (h : k.lastReset = t) :
    resetKey t k = k := by
  unfold resetKey; simp [h]

theorem reset_fst_keys (t n : String) (c : GlobalConfig) :
    (resetDailyUsageIfNeeded t n c).1.keys = c.keys.map (resetKey t) := by
  unfold resetDailyUsageIfNeeded saveConfig
  split <;> rfl

theorem reset_fst_version (t n : String) (c : GlobalConfig) :
    (resetDailyUsageIfNeeded t n c).1.version = c.version := by
  unfold resetDailyUsageIfNeeded saveConfig
  split <;> rfl

theorem reset_noop (t n : String) (c : GlobalConfig) (h : ∀ k ∈ c.keys, k.lastReset = t) :
    resetDailyUsageIfNeeded t n c = (c, []) := by
  unfold resetDailyUsageIfNeeded
  have hall : c.keys.all (fun k => decide (k.lastReset = t)) = true := by
    simp only [List.all_eq_true, decide_eq_true_eq]
    exact h
  have hmap : c.keys.map (resetKey t) = c.keys := by
    conv_rhs => rw [← List.map_id c.keys]
    exact List.map_congr_left (fun k hk => resetKey_eq_self t k (h k hk))
  simp only [hall, if_true, hmap]

theorem mem_map_reset_lastReset (t : String) (l : List ApiKeyState) :
    ∀ k ∈ l.map (resetKey t), k.lastReset = t := by
  intro k hk
  obtain ⟨a, _, rfl⟩ := List.mem_map.1 hk
  exact resetKey_lastReset t a

theorem getAvailableKey_fst (t n : String) (c : GlobalConfig) :
    (getAvailableKey t n c).1 = resetDailyUsageIfNeeded t n c := rfl

theorem getAvailableKey_snd (t n : String) (c : GlobalConfig) :
    (getAvailableKey t n c).2 = (c.keys.map (resetKey t)).find? eligible := by
  show ((resetDailyUsageIfNeeded t n c).1.keys).find? eligible = _
  rw [reset_fst_keys]

theorem eligible_iff (k : ApiKeyState) :
    eligible k = true ↔ (k.isActive = true ∧ k.dailyUsage < k.dailyLimit) := by
  simp [eligible]

theorem eligible_eq_false_iff (k : ApiKeyState) :
    eligible k = false ↔ ¬ (k.isActive = true ∧ k.dailyUsage < k.dailyLimit) := by
  rw [← eligible_iff]
  cases eligible k <;> simp

theorem find?_first {α : Type} (p : α → Bool) (l : List α) :
    ∀ a, l.find? p = some a →
      ∃ i, l[i]? = some a ∧ p a = true ∧
        ∀ (j : Nat) (b : α), j < i → l[j]? = some b → p b = false := by
  induction l with
  | nil => intro a h; simp at h
  | cons x xs ih =>
    intro a h
    by_cases hx : p x = true
    · rw [List.find?_cons_of_pos _ hx] at h
      cases h
      refine ⟨0, by simp, hx, ?_⟩
      intro j b hj _
      exact absurd hj (Nat.not_lt_zero j)
    · rw [List.find?_cons_of_neg _ hx] at h
      obtain ⟨i, hi, hpa, hfirst⟩ := ih a h
      refine ⟨i + 1, by simpa using hi, hpa, ?_⟩
      intro j b hj hb
      cases j with
      | zero =>
          have hxb : x = b := by simpa using hb
          subst hxb
          simpa using hx
      | succ j =>
          exact hfirst j b (Nat.lt_of_succ_lt_succ hj) (by simpa using hb)

end GCM

/-- C1: for every store state, `selectEligible()` (`getAvailableKey`) first
applies the day-rollover reset to all records, then scans records in store
order and returns the first record with `isActive` true and
`dailyUsage < dailyLimit`; if no record satisfies both conditions it
returns none; in particular, for the empty store it returns none. -/
theorem c1_selectEligible_first_eligible (c : GlobalConfig) (today now : String) :
    ((GCM.getAvailableKey today now c).1.1.keys = c.keys.map (GCM.resetKey today)) ∧
    ((GCM.getAvailableKey today now c).2 = none ↔
      ∀ k ∈ c.keys.map (GCM.resetKey today),
        ¬ (k.isActive = true ∧ k.dailyUsage < k.dailyLimit)) ∧
    (∀ r, (GCM.getAvailableKey today now c).2 = some r →
      (r.isActive = true ∧ r.dailyUsage < r.dailyLimit) ∧
      ∃ i, (c.keys.map (GCM.resetKey today))[i]? = some r ∧
        ∀ (j : Nat) (b : ApiKeyState), j < i →
          (c.keys.map (GCM.resetKey today))[j]? = some b →
          ¬ (b.isActive = true ∧ b.dailyUsage < b.dailyLimit)) ∧
    (c.keys = [] → (GCM.getAvailableKey today now c).2 = none) := by
  refine ⟨GCM.reset_fst_keys today now c, ?_, ?_, ?_⟩
  · rw [GCM.getAvailableKey_snd, List.find?_eq_none]
    constructor
    · intro h k hk
      have := h k hk
      rw [GCM.eligible_iff] at this
      exact this
    · intro h k hk
      rw [GCM.eligible_iff]
      exact h k hk
  · intro r hr
    rw [GCM.getAvailableKey_snd] at hr
    obtain ⟨i, hi, hpa, hfirst⟩ := GCM.find?_first _ _ r hr
    refine ⟨(GCM.eligible_iff r).1 hpa, i, hi, ?_⟩
    intro j b hj hb
    exact (GCM.eligible_eq_false_iff b).1 (hfirst j b hj hb)
  · intro h
    rw [GCM.getAvailableKey_snd, h]
    rfl

/-- Witness for C1 at a concrete empty store. -/
theorem c1_selectEligible_first_eligible_witness :
    (GCM.getAvailableKey "2025-01-02" "T1"
      { keys := [], lastUpdated := "T0", version := "1.0.0" }).2 = none :=
  (c1_selectEligible_first_eligible
    { keys := [], lastUpdated := "T0", version := "1.0.0" } "2025-01-02" "T1").2.2.2 rfl

namespace GCM

theorem foldl_add_eq_sum (f : ApiKeyState → Nat) :
    ∀ (l : List ApiKeyState) (a : Nat),
      l.foldl (fun s k => s + f k) a = a + (l.map f).sum := by
  intro l
  induction l with
  | nil => intro a; simp
  | cons x xs ih =>
      intro a
      simp only [List.foldl_cons, List.map_cons, List.sum_cons, ih (a + f x)]
      omega

theorem map_reset_field_id (t : String) (l : List ApiKeyState) :
    (l.map (resetKey t)).map (fun k => k.id) = l.map (fun k => k.id) := by
  simp only [List.map_map]
  exact List.map_congr_left fun k _ => resetKey_id t k

theorem map_reset_field_apiKey (t : String) (l : List ApiKeyState) :
    (l.map (resetKey t)).map (fun k => k.apiKey) = l.map (fun k => k.apiKey) := by
  simp only [List.map_map]
  exact List.map_congr_left fun k _ => resetKey_apiKey t k

theorem map_reset_field_scope (t : String) (l : List ApiKeyState) :
    (l.map (resetKey t)).map (fun k => k.searchEngineId) =
      l.map (fun k => k.searchEngineId) := by
  simp only [List.map_map]
  exact List.map_congr_left fun k _ => resetKey_searchEngineId t k

theorem map_reset_field_limit (t : String) (l : List ApiKeyState) :
    (l.map (resetKey t)).map (fun k => k.dailyLimit) = l.map (fun k => k.dailyLimit) := by
  simp only [List.map_map]
  exact List.map_congr_left fun k _ => resetKey_dailyLimit t k

theorem getQuotaStatus_fst (t n : String) (c : GlobalConfig) :
    (getQuotaStatus t n c).1 = resetDailyUsageIfNeeded t n c := rfl

theorem getQuotaStatus_fst_keys (t n : String) (c : GlobalConfig) :
    (getQuotaStatus t n c).1.1.keys = c.keys.map (resetKey t) :=
  reset_fst_keys t n c

end GCM

/-- C6: `quotaSnapshot()` (after its day-rollover reset) returns `totalUsed`
equal to the sum of all records' `dailyUsage`, `totalLimit` equal to the sum
of all records' `dailyLimit`, and one per-record entry
`{id, used, limit, remaining, active}` in store order with
`remaining = limit - used`; it changes no record fields other than those
touched by the rollover reset (id, secret, scope id and limit of every
record are preserved, and the keys are exactly the reset-mapped keys). -/
theorem c6_quotaSnapshot_totals_and_view (c : GlobalConfig) (today now : String) :
    ((GCM.getQuotaStatus today now c).2.totalUsed =
      (((GCM.getQuotaStatus today now c).1.1.keys).map (fun k => k.dailyUsage)).sum) ∧
    ((GCM.getQuotaStatus today now c).2.totalLimit =
      (((GCM.getQuotaStatus today now c).1.1.keys).map (fun k => k.dailyLimit)).sum) ∧
    ((GCM.getQuotaStatus today now c).2.keysStatus =
      ((GCM.getQuotaStatus today now c).1.1.keys).map (fun k =>
        { id := k.id
          used := k.dailyUsage
          limit := k.dailyLimit
          remaining := (k.dailyLimit : Int) - (k.dailyUsage : Int)
          active := k.isActive })) ∧
    ((GCM.getQuotaStatus today now c).1.1.keys = c.keys.map (GCM.resetKey today)) ∧
    ((GCM.getQuotaStatus today now c).1.1.keys.map (fun k => k.id) =
      c.keys.map (fun k => k.id)) ∧
    ((GCM.getQuotaStatus today now c).1.1.keys.map (fun k => k.apiKey) =
      c.keys.map (fun k => k.apiKey)) ∧
    ((GCM.getQuotaStatus today now c).1.1.keys.map (fun k => k.searchEngineId) =
      c.keys.map (fun k => k.searchEngineId)) ∧
    ((GCM.getQuotaStatus today now c).1.1.keys.map (fun k => k.dailyLimit) =
      c.keys.map (fun k => k.dailyLimit)) := by
  refine ⟨?_, ?_, rfl, GCM.getQuotaStatus_fst_keys today now c, ?_, ?_, ?_, ?_⟩
  · show ((GCM.resetDailyUsageIfNeeded today now c).1.keys).foldl
        (fun s k => s + k.dailyUsage) 0 = _
    rw [GCM.foldl_add_eq_sum, Nat.zero_add]
    rfl
  · show ((GCM.resetDailyUsageIfNeeded today now c).1.keys).foldl
        (fun s k => s + k.dailyLimit) 0 = _
    rw [GCM.foldl_add_eq_sum, Nat.zero_add]
    rfl
  · rw [GCM.getQuotaStatus_fst_keys]; exact GCM.map_reset_field_id today c.keys
  · rw [GCM.getQuotaStatus_fst_keys]; exact GCM.map_reset_field_apiKey today c.keys
  · rw [GCM.getQuotaStatus_fst_keys]; exact GCM.map_reset_field_scope today c.keys
  · rw [GCM.getQuotaStatus_fst_keys]; exact GCM.map_reset_field_limit today c.keys

/-- C9: `quotaSnapshot()` is idempotent within one calendar day: a second
call on the state left by the first returns the identical result, leaves
the state exactly as after the first call, and writes nothing. -/
theorem c9_quotaSnapshot_idempotent (c : GlobalConfig) (today n1 n2 : String) :
    ((GCM.getQuotaStatus today n2 ((GCM.getQuotaStatus today n1 c).1.1)).2 =
      (GCM.getQuotaStatus today n1 c).2) ∧
    ((GCM.getQuotaStatus today n2 ((GCM.getQuotaStatus today n1 c).1.1)).1.1 =
      (GCM.getQuotaStatus today n1 c).1.1) ∧
    ((GCM.getQuotaStatus today n2 ((GCM.getQuotaStatus today n1 c).1.1)).1.2 = []) := by
  have hall : ∀ k ∈ (GCM.resetDailyUsageIfNeeded today n1 c).1.keys, k.lastReset = today := by
    rw [GCM.reset_fst_keys]
    exact GCM.mem_map_reset_lastReset today c.keys
  have hnoop : GCM.resetDailyUsageIfNeeded today n2 (GCM.resetDailyUsageIfNeeded today n1 c).1 =
      ((GCM.resetDailyUsageIfNeeded today n1 c).1, []) :=
    GCM.reset_noop today n2 _ hall
  refine ⟨?_, ?_, ?_⟩ <;>
    simp only [GCM.getQuotaStatus, hnoop]

/-- C10: the collaborator-facing `acquire()`
(`GoogleSearchConfig.getAvailableKey`) returns a fresh copy of the selected
credential's fields, not the store's record object: the value handed to the
caller is the field-by-field copy of the record the store selects, and any
caller-side transformation of that value leaves the store component (which
is exactly the rollover-reset store) unchanged. -/
theorem c10_acquire_returns_copy (c : GlobalConfig) (today now : String)
    (f : GoogleApiKey → GoogleApiKey) :
    ((GSC.mutateReturned f (GSC.getAvailableKey today now c)).store =
      (GSC.getAvailableKey today now c).store) ∧
    ((GSC.mutateReturned f (GSC.getAvailableKey today now c)).writes =
      (GSC.getAvailableKey today now c).writes) ∧
    ((GSC.getAvailableKey today now c).returned =
      ((GCM.getAvailableKey today now c).2).map GSC.copyKey) ∧
    ((GSC.getAvailableKey today now c).store.keys = c.keys.map (GCM.resetKey today)) := by
  exact ⟨rfl, rfl, rfl, GCM.reset_fst_keys today now c⟩

/-- C7: `load()` never fails the caller: an absent or unparsable file
initializes an empty store (version 1.0.0) without writing anything back (so
a corrupt file is not overwritten); a parsed file lacking the version field
gets the current version stamped and persisted immediately (the first write
is the stamped config). -/
theorem c7_load_total_and_migrating (t n : String) (raw : GCM.RawConfig) :
    (GCM.loadConfig .absent t n =
      ({ keys := [], lastUpdated := n, version := "1.0.0" }, [])) ∧
    (GCM.loadConfig .unparsable t n =
      ({ keys := [], lastUpdated := n, version := "1.0.0" }, [])) ∧
    (raw.version = none →
      ((GCM.loadConfig (.parsed raw) t n).1.version = "1.0.0") ∧
      ((GCM.loadConfig (.parsed raw) t n).2.head? =
        some { keys := raw.keys, lastUpdated := n, version := "1.0.0" })) := by
  refine ⟨rfl, rfl, ?_⟩
  intro hv
  have hm : GCM.migrateIfNeeded n raw =
      ({ keys := raw.keys, lastUpdated := n, version := "1.0.0" },
       [{ keys := raw.keys, lastUpdated := n, version := "1.0.0" }]) := by
    simp only [GCM.migrateIfNeeded, hv, GCM.saveConfig]
  constructor
  · show (GCM.resetDailyUsageIfNeeded t n (GCM.migrateIfNeeded n raw).1).1.version = "1.0.0"
    rw [GCM.reset_fst_version, hm]
  · show ((GCM.migrateIfNeeded n raw).2 ++
        (GCM.resetDailyUsageIfNeeded t n (GCM.migrateIfNeeded n raw).1).2).head? = _
    rw [hm]
    simp

/-- Witness for C7: a concrete version-less parsed file is stamped with
version 1.0.0 and that stamped config is the first write. -/
theorem c7_load_total_and_migrating_witness :
    ((GCM.loadConfig (.parsed { keys := [], lastUpdated := "T0", version := none })
        "2025-01-02" "T1").1.version = "1.0.0") ∧
    ((GCM.loadConfig (.parsed { keys := [], lastUpdated := "T0", version := none })
        "2025-01-02" "T1").2.head? =
      some { keys := [], lastUpdated := "T1", version := "1.0.0" }) :=
  (c7_load_total_and_migrating "2025-01-02" "T1"
    { keys := [], lastUpdated := "T0", version := none }).2.2 rfl

namespace GCM

theorem updateFirst_eq_set (p : ApiKeyState → Bool) (f : ApiKeyState → ApiKeyState) :
    ∀ (l : List ApiKeyState) (i : Nat) (k : ApiKeyState),
      l[i]? = some k → p k = true →
      (∀ (j : Nat) (b : ApiKeyState), j < i → l[j]? = some b → p b = false) →
      updateFirst p f l = l.set i (f k) := by
  intro l
  induction l with
  | nil => intro i k h; simp at h
  | cons x xs ih =>
      intro i k hik hpk hfirst
      cases i with
      | zero =>
          have hxk : x = k := by simpa using hik
          subst hxk
          unfold updateFirst
          rw [if_pos hpk]
          rfl
      | succ i =>
          have hx : p x = false := hfirst 0 x (Nat.succ_pos i) (by simp)
          have hrest : ∀ (j : Nat) (b : ApiKeyState), j < i → xs[j]? = some b → p b = false := by
            intro j b hj hb
            exact hfirst (j + 1) b (Nat.succ_lt_succ hj) (by simpa using hb)
          unfold updateFirst
          rw [if_neg (by simp [hx]), ih i k (by simpa using hik) hpk hrest]
          rfl

/-- In a store with pairwise-distinct ids, a record found at index `i`
is the unique one with its id: any other index holds a different id. -/
theorem nodup_ids_first_match (l : List ApiKeyState) (i : Nat) (k : ApiKeyState)
    (hnd : (l.map (fun x => x.id)).Nodup) (hik : l[i]? = some k) :
    ∀ (j : Nat) (b : ApiKeyState), j < i → l[j]? = some b →
      (fun x => decide (x.id = k.id)) b = false := by
  intro j b hj hjb
  simp only [decide_eq_false_iff_not]
  intro hb
  have hmi : (l.map (fun x => x.id))[i]? = some k.id := by
    rw [List.getElem?_map, hik]; rfl
  have hmj : (l.map (fun x => x.id))[j]? = some k.id := by
    rw [List.getElem?_map, hjb]
    simpa using hb
  have hji : j = i := by
    have hlen : j < (l.map (fun x => x.id)).length := by
      rw [List.length_map]
      exact (List.getElem?_eq_some_iff.1 hjb).1
    exact List.getElem?_inj hlen hnd (hmj.trans hmi.symm)
  omega

end GCM

namespace GCM

theorem updateFirst_map_field {β : Type} (p : ApiKeyState → Bool)
    (f : ApiKeyState → ApiKeyState) (g : ApiKeyState → β)
    (hg : ∀ x, g (f x) = g x) :
    ∀ l : List ApiKeyState, (updateFirst p f l).map g = l.map g := by
  intro l
  induction l with
  | nil => rfl
  | cons x xs ih =>
      unfold updateFirst
      by_cases hx : p x = true
      · rw [if_pos hx]
        simp only [List.map_cons, hg]
      · rw [if_neg hx]
        simp only [List.map_cons, ih]

theorem incrementUsage_map_field {β : Type} (g : ApiKeyState → β)
    (hg : ∀ x, g { x with dailyUsage := x.dailyUsage + 1 } = g x)
    (kid n : String) (c : GlobalConfig) :
    (incrementUsage kid n c).1.keys.map g = c.keys.map g := by
  cases hf : c.keys.find? (fun x => decide (x.id = kid)) with
  | none => simp only [incrementUsage, hf]
  | some w =>
      simp only [incrementUsage, hf, saveConfig]
      exact updateFirst_map_field _ _ g hg c.keys

theorem disableKey_map_field {β : Type} (g : ApiKeyState → β)
    (hg : ∀ x, g { x with isActive := false } = g x)
    (kid n : String) (c : GlobalConfig) :
    (disableKey kid n c).1.keys.map g = c.keys.map g := by
  cases hf : c.keys.find? (fun x => decide (x.id = kid)) with
  | none => simp only [disableKey, hf]
  | some w =>
      simp only [disableKey, hf, saveConfig]
      exact updateFirst_map_field _ _ g hg c.keys

end GCM

/-- C8: `recordUsage(id)` and `deactivate(id, reason)` with an id not
present in the store leave the whole store (every record, `lastUpdated`,
`version`) unchanged and write nothing, raising no error (they are total);
with a present id (ids unique, as the store invariant guarantees),
`recordUsage` increments exactly that record's `dailyUsage` by exactly 1
and `deactivate` sets exactly that record's `isActive` to false, all other
records unchanged (`List.set` at the record's index). -/
theorem c8_unknown_id_noop_known_id_exact (c : GlobalConfig) (keyId now : String)
    (i : Nat) (k : ApiKeyState) :
    (keyId ∉ c.keys.map (fun x => x.id) →
      GCM.incrementUsage keyId now c = (c, []) ∧
      GCM.disableKey keyId now c = (c, [])) ∧
    ((c.keys.map (fun x => x.id)).Nodup → c.keys[i]? = some k → k.id = keyId →
      ((GCM.incrementUsage keyId now c).1.keys =
        c.keys.set i { k with dailyUsage := k.dailyUsage + 1 }) ∧
      ((GCM.disableKey keyId now c).1.keys =
        c.keys.set i { k with isActive := false })) := by
  constructor
  · intro hmem
    have hf : c.keys.find? (fun x => decide (x.id = keyId)) = none := by
      rw [List.find?_eq_none]
      intro x hx
      simp only [decide_eq_true_eq]
      intro hxk
      exact hmem (hxk ▸ List.mem_map_of_mem (fun y => y.id) hx)
    constructor
    · simp only [GCM.incrementUsage, hf]
    · simp only [GCM.disableKey, hf]
  · intro hnd hik hkid
    have hpk : (fun x => decide (x.id = keyId)) k = true := by simp [hkid]
    have hfirst' := GCM.nodup_ids_first_match c.keys i k hnd hik
    have hfirst : ∀ (j : Nat) (b : ApiKeyState), j < i → c.keys[j]? = some b →
        (fun x => decide (x.id = keyId)) b = false := by
      intro j b hj hjb
      have := hfirst' j b hj hjb
      simpa [hkid] using this
    have hsome : (c.keys.find? (fun x => decide (x.id = keyId))).isSome := by
      rw [List.find?_isSome]
      exact ⟨k, List.getElem?_mem hik, hpk⟩
    obtain ⟨w, hw⟩ := Option.isSome_iff_exists.1 hsome
    constructor
    · simp only [GCM.incrementUsage, hw, GCM.saveConfig]
      exact GCM.updateFirst_eq_set _ _ c.keys i k hik hpk hfirst
    · simp only [GCM.disableKey, hw, GCM.saveConfig]
      exact GCM.updateFirst_eq_set _ _ c.keys i k hik hpk hfirst

/-- Witness for C8: an unknown id is a complete no-op; a known id in a
two-record store updates exactly the addressed record. -/
theorem c8_unknown_id_noop_known_id_exact_witness :
    (GCM.incrementUsage "nope" "T1"
        { keys := [{ id := "key_1", apiKey := "a", searchEngineId := "s",
                     dailyUsage := 3, dailyLimit := 100,
                     lastReset := "2025-01-02", isActive := true }],
          lastUpdated := "T0", version := "1.0.0" } =
      ({ keys := [{ id := "key_1", apiKey := "a", searchEngineId := "s",
                    dailyUsage := 3, dailyLimit := 100,
                    lastReset := "2025-01-02", isActive := true }],
         lastUpdated := "T0", version := "1.0.0" }, []) ∧
     GCM.disableKey "nope" "T1"
        { keys := [{ id := "key_1", apiKey := "a", searchEngineId := "s",
                     dailyUsage := 3, dailyLimit := 100,
                     lastReset := "2025-01-02", isActive := true }],
          lastUpdated := "T0", version := "1.0.0" } =
      ({ keys := [{ id := "key_1", apiKey := "a", searchEngineId := "s",
                    dailyUsage := 3, dailyLimit := 100,
                    lastReset := "2025-01-02", isActive := true }],
         lastUpdated := "T0", version := "1.0.0" }, [])) ∧
    ((GCM.incrementUsage "key_2" "T1"
        { keys := [{ id := "key_1", apiKey := "a", searchEngineId := "s",
                     dailyUsage := 3, dailyLimit := 100,
                     lastReset := "2025-01-02", isActive := true },
                   { id := "key_2", apiKey := "b", searchEngineId := "s",
                     dailyUsage := 7, dailyLimit := 100,
                     lastReset := "2025-01-02", isActive := true }],
          lastUpdated := "T0", version := "1.0.0" }).1.keys =
      [{ id := "key_1", apiKey := "a", searchEngineId := "s",
         dailyUsage := 3, dailyLimit := 100,
         lastReset := "2025-01-02", isActive := true },
       { id := "key_2", apiKey := "b", searchEngineId := "s",
         dailyUsage := 7, dailyLimit := 100,
         lastReset := "2025-01-02", isActive := true }].set 1
        { id := "key_2", apiKey := "b", searchEngineId := "s",
          dailyUsage := 7 + 1, dailyLimit := 100,
          lastReset := "2025-01-02", isActive := true } ∧
     (GCM.disableKey "key_2" "T1"
        { keys := [{ id := "key_1", apiKey := "a", searchEngineId := "s",
                     dailyUsage := 3, dailyLimit := 100,
                     lastReset := "2025-01-02", isActive := true },
                   { id := "key_2", apiKey := "b", searchEngineId := "s",
                     dailyUsage := 7, dailyLimit := 100,
                     lastReset := "2025-01-02", isActive := true }],
          lastUpdated := "T0", version := "1.0.0" }).1.keys =
      [{ id := "key_1", apiKey := "a", searchEngineId := "s",
         dailyUsage := 3, dailyLimit := 100,
         lastReset := "2025-01-02", isActive := true },
       { id := "key_2", apiKey := "b", searchEngineId := "s",
         dailyUsage := 7, dailyLimit := 100,
         lastReset := "2025-01-02", isActive := true }].set 1
        { id := "key_2", apiKey := "b", searchEngineId := "s",
          dailyUsage := 7, dailyLimit := 100,
          lastReset := "2025-01-02", isActive := false }) :=
  ⟨(c8_unknown_id_noop_known_id_exact
      { keys := [{ id := "key_1", apiKey := "a", searchEngineId := "s",
                   dailyUsage := 3, dailyLimit := 100,
                   lastReset := "2025-01-02", isActive := true }],
        lastUpdated := "T0", version := "1.0.0" } "nope" "T1" 0
      { id := "key_1", apiKey := "a", searchEngineId := "s",
        dailyUsage := 3, dailyLimit := 100,
        lastReset := "2025-01-02", isActive := true }).1 (by decide),
   (c8_unknown_id_noop_known_id_exact
      { keys := [{ id := "key_1", apiKey := "a", searchEngineId := "s",
                   dailyUsage := 3, dailyLimit := 100,
                   lastReset := "2025-01-02", isActive := true },
                 { id := "key_2", apiKey := "b", searchEngineId := "s",
                   dailyUsage := 7, dailyLimit := 100,
                   lastReset := "2025-01-02", isActive := true }],
        lastUpdated := "T0", version := "1.0.0" } "key_2" "T1" 1
      { id := "key_2", apiKey := "b", searchEngineId := "s",
        dailyUsage := 7, dailyLimit := 100,
        lastReset := "2025-01-02", isActive := true }).2 (by decide) (by decide) (by decide)⟩

/-- C2 counterexample: a record with `lastReset` = 2025-01-01 (yesterday),
`isActive` = false, `dailyUsage` = 57, at current date 2025-01-02, is NOT
reset by the store operation `recordUsage` (`incrementUsage`): the record
ends with `dailyUsage` = 58, `lastReset` = 2025-01-01, `isActive` = false,
not the `(0, today, true)` the claim requires of "the next Store operation
of any kind". -/
theorem c2_rollover_any_op_counterexample :
    ((GCM.incrementUsage "key_1" "2025-01-02T01:00:00Z"
        { keys := [{ id := "key_1", apiKey := "a", searchEngineId := "s",
                     dailyUsage := 57, dailyLimit := 100,
                     lastReset := "2025-01-01", isActive := false }],
          lastUpdated := "T0", version := "1.0.0" }).1.keys.map
        (fun k => (k.dailyUsage, k.lastReset, k.isActive)) =
      [(58, "2025-01-01", false)]) ∧
    ¬ ((GCM.incrementUsage "key_1" "2025-01-02T01:00:00Z"
        { keys := [{ id := "key_1", apiKey := "a", searchEngineId := "s",
                     dailyUsage := 57, dailyLimit := 100,
                     lastReset := "2025-01-01", isActive := false }],
          lastUpdated := "T0", version := "1.0.0" }).1.keys.map
        (fun k => (k.dailyUsage, k.lastReset, k.isActive)) =
      [(0, "2025-01-02", true)]) := by
  constructor
  · rfl
  · decide

namespace GCM

theorem migrate_fst_keys (n : String) (raw : RawConfig) :
    (migrateIfNeeded n raw).1.keys = raw.keys := by
  unfold migrateIfNeeded saveConfig
  split
  · rfl
  · split <;> rfl

theorem loadConfig_parsed_keys (t n : String) (raw : RawConfig) :
    (loadConfig (.parsed raw) t n).1.keys = raw.keys.map (resetKey t) := by
  show (resetDailyUsageIfNeeded t n (migrateIfNeeded n raw).1).1.keys = _
  rw [reset_fst_keys, migrate_fst_keys]

end GCM

/-- C2 (amended): the day-rollover reset is applied by `selectEligible()`,
`quotaSnapshot()` and `load()`, not by `recordUsage` or `deactivate`.  For
every record whose `lastReset` differs from today, each of those three
reset-applying operations sets it to `dailyUsage = 0`, `lastReset = today`,
`isActive = true` (for `load()`: any stale record of a parsed file ends so
after loading); the reset happens at most once per record per calendar
day (a second same-day `selectEligible` changes no state and writes
nothing); `recordUsage` never changes any record's `lastReset` or
`isActive`, and `deactivate` never changes any record's `lastReset` or
`dailyUsage`. -/
theorem c2_amended_rollover_on_reset_ops (c : GlobalConfig)
    (today now n2 kid : String) (i : Nat) (k : ApiKeyState) (raw : GCM.RawConfig) :
    (c.keys[i]? = some k → k.lastReset ≠ today →
      ((GCM.getAvailableKey today now c).1.1.keys[i]? =
        some { k with dailyUsage := 0, lastReset := today, isActive := true }) ∧
      ((GCM.getQuotaStatus today now c).1.1.keys[i]? =
        some { k with dailyUsage := 0, lastReset := today, isActive := true })) ∧
    (raw.keys[i]? = some k → k.lastReset ≠ today →
      ((GCM.loadConfig (GCM.FileContent.parsed raw) today now).1.keys[i]? =
        some { k with dailyUsage := 0, lastReset := today, isActive := true })) ∧
    ((GCM.getAvailableKey today n2 ((GCM.getAvailableKey today now c).1.1)).1 =
      (((GCM.getAvailableKey today now c).1.1), [])) ∧
    ((GCM.incrementUsage kid n2 c).1.keys.map (fun x => x.lastReset) =
      c.keys.map (fun x => x.lastReset)) ∧
    ((GCM.incrementUsage kid n2 c).1.keys.map (fun x => x.isActive) =
      c.keys.map (fun x => x.isActive)) ∧
    ((GCM.disableKey kid n2 c).1.keys.map (fun x => x.lastReset) =
      c.keys.map (fun x => x.lastReset)) ∧
    ((GCM.disableKey kid n2 c).1.keys.map (fun x => x.dailyUsage) =
      c.keys.map (fun x => x.dailyUsage)) := by
  refine ⟨?_, ?_, ?_, ?_, ?_, ?_, ?_⟩
  · intro hik hne
    have hres : GCM.resetKey today k =
        { k with dailyUsage := 0, lastReset := today, isActive := true } := by
      unfold GCM.resetKey
      rw [if_neg hne]
    constructor
    · show (GCM.resetDailyUsageIfNeeded today now c).1.keys[i]? = _
      rw [GCM.reset_fst_keys, List.getElem?_map, hik]
      simp [hres]
    · show (GCM.resetDailyUsageIfNeeded today now c).1.keys[i]? = _
      rw [GCM.reset_fst_keys, List.getElem?_map, hik]
      simp [hres]
  · intro hik hne
    have hres : GCM.resetKey today k =
        { k with dailyUsage := 0, lastReset := today, isActive := true } := by
      unfold GCM.resetKey
      rw [if_neg hne]
    rw [GCM.loadConfig_parsed_keys, List.getElem?_map, hik]
    simp [hres]
  · have hall : ∀ x ∈ (GCM.resetDailyUsageIfNeeded today now c).1.keys,
        x.lastReset = today := by
      rw [GCM.reset_fst_keys]
      exact GCM.mem_map_reset_lastReset today c.keys
    exact GCM.reset_noop today n2 _ hall
  · exact GCM.incrementUsage_map_field (fun x => x.lastReset) (fun x => rfl) kid n2 c
  · exact GCM.incrementUsage_map_field (fun x => x.isActive) (fun x => rfl) kid n2 c
  · exact GCM.disableKey_map_field (fun x => x.lastReset) (fun x => rfl) kid n2 c
  · exact GCM.disableKey_map_field (fun x => x.dailyUsage) (fun x => rfl) kid n2 c

/-- Witness for C2 (amended) at a concrete stale record. -/
theorem c2_amended_rollover_on_reset_ops_witness :
    ((GCM.getAvailableKey "2025-01-02" "T1"
        { keys := [{ id := "key_1", apiKey := "a", searchEngineId := "s",
                     dailyUsage := 57, dailyLimit := 100,
                     lastReset := "2025-01-01", isActive := false }],
          lastUpdated := "T0", version := "1.0.0" }).1.1.keys[0]? =
      some { id := "key_1", apiKey := "a", searchEngineId := "s",
             dailyUsage := 0, dailyLimit := 100,
             lastReset := "2025-01-02", isActive := true }) ∧
    ((GCM.getQuotaStatus "2025-01-02" "T1"
        { keys := [{ id := "key_1", apiKey := "a", searchEngineId := "s",
                     dailyUsage := 57, dailyLimit := 100,
                     lastReset := "2025-01-01", isActive := false }],
          lastUpdated := "T0", version := "1.0.0" }).1.1.keys[0]? =
      some { id := "key_1", apiKey := "a", searchEngineId := "s",
             dailyUsage := 0, dailyLimit := 100,
             lastReset := "2025-01-02", isActive := true }) ∧
    ((GCM.loadConfig (GCM.FileContent.parsed
        { keys := [{ id := "key_1", apiKey := "a", searchEngineId := "s",
                     dailyUsage := 57, dailyLimit := 100,
                     lastReset := "2025-01-01", isActive := false }],
          lastUpdated := "T0", version := some "1.0.0" })
        "2025-01-02" "T1").1.keys[0]? =
      some { id := "key_1", apiKey := "a", searchEngineId := "s",
             dailyUsage := 0, dailyLimit := 100,
             lastReset := "2025-01-02", isActive := true }) :=
  ⟨((c2_amended_rollover_on_reset_ops
      { keys := [{ id := "key_1", apiKey := "a", searchEngineId := "s",
                   dailyUsage := 57, dailyLimit := 100,
                   lastReset := "2025-01-01", isActive := false }],
        lastUpdated := "T0", version := "1.0.0" }
      "2025-01-02" "T1" "T2" "key_1" 0
      { id := "key_1", apiKey := "a", searchEngineId := "s",
        dailyUsage := 57, dailyLimit := 100,
        lastReset := "2025-01-01", isActive := false }
      { keys := [{ id := "key_1", apiKey := "a", searchEngineId := "s",
                   dailyUsage := 57, dailyLimit := 100,
                   lastReset := "2025-01-01", isActive := false }],
        lastUpdated := "T0", version := some "1.0.0" }).1
      (by decide) (by decide)).1,
   ((c2_amended_rollover_on_reset_ops
      { keys := [{ id := "key_1", apiKey := "a", searchEngineId := "s",
                   dailyUsage := 57, dailyLimit := 100,
                   lastReset := "2025-01-01", isActive := false }],
        lastUpdated := "T0", version := "1.0.0" }
      "2025-01-02" "T1" "T2" "key_1" 0
      { id := "key_1", apiKey := "a", searchEngineId := "s",
        dailyUsage := 57, dailyLimit := 100,
        lastReset := "2025-01-01", isActive := false }
      { keys := [{ id := "key_1", apiKey := "a", searchEngineId := "s",
                   dailyUsage := 57, dailyLimit := 100,
                   lastReset := "2025-01-01", isActive := false }],
        lastUpdated := "T0", version := some "1.0.0" }).1
      (by decide) (by decide)).2,
   (c2_amended_rollover_on_reset_ops
      { keys := [{ id := "key_1", apiKey := "a", searchEngineId := "s",
                   dailyUsage := 57, dailyLimit := 100,
                   lastReset := "2025-01-01", isActive := false }],
        lastUpdated := "T0", version := "1.0.0" }
      "2025-01-02" "T1" "T2" "key_1" 0
      { id := "key_1", apiKey := "a", searchEngineId := "s",
        dailyUsage := 57, dailyLimit := 100,
        lastReset := "2025-01-01", isActive := false }
      { keys := [{ id := "key_1", apiKey := "a", searchEngineId := "s",
                   dailyUsage := 57, dailyLimit := 100,
                   lastReset := "2025-01-01", isActive := false }],
        lastUpdated := "T0", version := some "1.0.0" }).2.1
      (by decide) (by decide)⟩

namespace GCM

theorem scopeFor_eq_spec (scopes : List String) (i : Nat) :
    scopeFor scopes i = SpecSide.specScopeFor scopes i := by
  unfold scopeFor SpecSide.specScopeFor SpecSide.specScopeFor.firstScope
  cases h : scopes.get? i with
  | none =>
      cases h0 : scopes.get? 0 with
      | none => simp [h, h0]
      | some s0 =>
          by_cases hs0 : jsTrim s0 = "" <;> simp [h, h0, hs0]
  | some s =>
      by_cases hs : jsTrim s = ""
      · cases h0 : scopes.get? 0 with
        | none => simp [h, h0, hs]
        | some s0 =>
            by_cases hs0 : jsTrim s0 = "" <;> simp [h, h0, hs, hs0]
      · simp [h, hs]

theorem setupKeys_fst_keys (apiKeys scopes : List String) (t n : String)
    (c : GlobalConfig) :
    (setupKeys apiKeys scopes t n c).1.keys =
      (List.range apiKeys.length).map fun i =>
        { id := "key_" ++ toString (i + 1)
          apiKey := jsTrim ((apiKeys.get? i).getD "")
          searchEngineId := scopeFor scopes i
          dailyUsage := 0
          dailyLimit := 100
          lastReset := t
          isActive := true : ApiKeyState } := rfl

end GCM

/-- C5 counterexample: with secrets `["s1", "s2"]` and scope ids
`["a", " "]`, the scope id at position 2 exists (it is `" "`), so the claim
requires record 2 to receive it; the code instead trims it to empty and
falls back to the first scope id, producing `"a"`. -/
theorem c5_positional_scope_counterexample :
    ((GCM.setupKeys ["s1", "s2"] ["a", " "] "2025-01-02" "T1"
        { keys := [], lastUpdated := "T0", version := "1.0.0" }).1.keys.map
        (fun k => k.searchEngineId) = ["a", "a"]) ∧
    ¬ ((GCM.setupKeys ["s1", "s2"] ["a", " "] "2025-01-02" "T1"
        { keys := [], lastUpdated := "T0", version := "1.0.0" }).1.keys.map
        (fun k => k.searchEngineId) = ["a", " "]) := by
  constructor
  · rfl
  · decide

/-- C5 (amended): `bulkReplace` with k secrets and j scope ids discards
every existing credential and creates exactly k records in input order with
ids `key_1` ... `key_k`; secrets and scope ids are whitespace-trimmed;
record i gets the trimmed scope id at position i when that is nonempty,
otherwise the trimmed first scope id when that is nonempty, otherwise the
empty string; every new record has `dailyUsage = 0`, `dailyLimit = 100`,
`lastReset = today`, `isActive = true`. -/
theorem c5_amended_bulkReplace (c : GlobalConfig) (secrets scopes : List String)
    (today now : String) :
    ((GCM.setupKeys secrets scopes today now c).1.keys.length = secrets.length) ∧
    (∀ (i : Nat) (k : ApiKeyState),
      (GCM.setupKeys secrets scopes today now c).1.keys[i]? = some k →
        k.id = "key_" ++ toString (i + 1) ∧
        k.apiKey = jsTrim ((secrets.get? i).getD "") ∧
        k.searchEngineId = SpecSide.specScopeFor scopes i ∧
        k.dailyUsage = 0 ∧ k.dailyLimit = 100 ∧ k.lastReset = today ∧
        k.isActive = true) := by
  constructor
  · rw [GCM.setupKeys_fst_keys, List.length_map, List.length_range]
  · intro i k hk
    rw [GCM.setupKeys_fst_keys, List.getElem?_map] at hk
    cases hr : (List.range secrets.length)[i]? with
    | none => rw [hr] at hk; simp at hk
    | some j =>
        have hlen : i < secrets.length := by
          have := (List.getElem?_eq_some_iff.1 hr).1
          rwa [List.length_range] at this
        have hji : j = i := by
          have h2 := List.getElem?_range hlen
          rw [hr] at h2
          exact (Option.some.inj h2)
        subst hji
        rw [hr] at hk
        have hk2 :
            ({ id := "key_" ++ toString (j + 1)
               apiKey := jsTrim ((secrets.get? j).getD "")
               searchEngineId := GCM.scopeFor scopes j
               dailyUsage := 0
               dailyLimit := 100
               lastReset := today
               isActive := true : ApiKeyState }) = k := by
          simpa using hk
        subst hk2
        exact ⟨rfl, rfl, GCM.scopeFor_eq_spec scopes j, rfl, rfl, rfl, rfl⟩

/-- Witness for C5 (amended): the second record built from secrets
`["s1", "s2"]` and scope ids `["a", " "]`. -/
theorem c5_amended_bulkReplace_witness :
    ({ id := "key_2", apiKey := "s2", searchEngineId := "a",
       dailyUsage := 0, dailyLimit := 100,
       lastReset := "2025-01-02", isActive := true : ApiKeyState }.id =
        "key_" ++ toString (1 + 1)) ∧
    ({ id := "key_2", apiKey := "s2", searchEngineId := "a",
       dailyUsage := 0, dailyLimit := 100,
       lastReset := "2025-01-02", isActive := true : ApiKeyState }.apiKey =
        jsTrim (((["s1", "s2"] : List String).get? 1).getD "")) ∧
    ({ id := "key_2", apiKey := "s2", searchEngineId := "a",
       dailyUsage := 0, dailyLimit := 100,
       lastReset := "2025-01-02", isActive := true : ApiKeyState }.searchEngineId =
        SpecSide.specScopeFor ["a", " "] 1) ∧
    ({ id := "key_2", apiKey := "s2", searchEngineId := "a",
       dailyUsage := 0, dailyLimit := 100,
       lastReset := "2025-01-02", isActive := true : ApiKeyState }.dailyUsage = 0) ∧
    ({ id := "key_2", apiKey := "s2", searchEngineId := "a",
       dailyUsage := 0, dailyLimit := 100,
       lastReset := "2025-01-02", isActive := true : ApiKeyState }.dailyLimit = 100) ∧
    ({ id := "key_2", apiKey := "s2", searchEngineId := "a",
       dailyUsage := 0, dailyLimit := 100,
       lastReset := "2025-01-02", isActive := true : ApiKeyState }.lastReset =
        "2025-01-02") ∧
    ({ id := "key_2", apiKey := "s2", searchEngineId := "a",
       dailyUsage := 0, dailyLimit := 100,
       lastReset := "2025-01-02", isActive := true : ApiKeyState }.isActive = true) :=
  (c5_amended_bulkReplace
    { keys := [], lastUpdated := "T0", version := "1.0.0" }
    ["s1", "s2"] ["a", " "] "2025-01-02" "T1").2 1
    { id := "key_2", apiKey := "s2", searchEngineId := "a",
      dailyUsage := 0, dailyLimit := 100,
      lastReset := "2025-01-02", isActive := true } (by decide)

namespace GCM

/-- Two positions carrying records with the same id coincide when the
store's ids are pairwise distinct. -/
theorem nodup_ids_index_eq (l : List ApiKeyState)
    (hnd : (l.map (fun x => x.id)).Nodup) (i j : Nat) (a b : ApiKeyState)
    (hia : l[i]? = some a) (hjb : l[j]? = some b) (hid : a.id = b.id) : i = j := by
  have hmi : (l.map (fun x => x.id))[i]? = some b.id := by
    rw [List.getElem?_map, hia]
    simpa using hid
  have hmj : (l.map (fun x => x.id))[j]? = some b.id := by
    rw [List.getElem?_map, hjb]
    rfl
  have hlen : i < (l.map (fun x => x.id)).length := by
    rw [List.length_map]
    exact (List.getElem?_eq_some_iff.1 hia).1
  exact List.getElem?_inj hlen hnd (hmi.trans hmj.symm)

/-- A same-day second `getAvailableKey` finds all records already reset:
it changes nothing, writes nothing, and selects the same record. -/
theorem getAvailableKey_post_stable (t n n2 : String) (c : GlobalConfig) :
    getAvailableKey t n2 ((getAvailableKey t n c).1.1) =
      (((getAvailableKey t n c).1.1, []), (getAvailableKey t n c).2) := by
  have hall : ∀ x ∈ (resetDailyUsageIfNeeded t n c).1.keys, x.lastReset = t := by
    rw [reset_fst_keys]
    exact mem_map_reset_lastReset t c.keys
  have hnoop := reset_noop t n2 (resetDailyUsageIfNeeded t n c).1 hall
  show (resetDailyUsageIfNeeded t n2 (resetDailyUsageIfNeeded t n c).1,
      (resetDailyUsageIfNeeded t n2 (resetDailyUsageIfNeeded t n c).1).1.keys.find?
        eligible) = _
  rw [hnoop]
  rfl

theorem all_today_of_map_eq (t : String) (l l2 : List ApiKeyState)
    (hm : l2.map (fun x => x.lastReset) = l.map (fun x => x.lastReset))
    (h : ∀ x ∈ l, x.lastReset = t) : ∀ x ∈ l2, x.lastReset = t := by
  intro x hx
  have hx2 : x.lastReset ∈ l2.map (fun y => y.lastReset) :=
    List.mem_map_of_mem _ hx
  rw [hm] at hx2
  obtain ⟨y, hy, hxy⟩ := List.mem_map.1 hx2
  rw [← hxy]
  exact h y hy

theorem disableKey_fst_keys_of_mem (kid n : String) (c : GlobalConfig)
    (h : ∃ x ∈ c.keys, x.id = kid) :
    (disableKey kid n c).1.keys =
      updateFirst (fun x => decide (x.id = kid))
        (fun x => { x with isActive := false }) c.keys := by
  have hsome : (c.keys.find? (fun x => decide (x.id = kid))).isSome := by
    rw [List.find?_isSome]
    obtain ⟨x, hx, hxe⟩ := h
    exact ⟨x, hx, by simp [hxe]⟩
  obtain ⟨w, hw⟩ := Option.isSome_iff_exists.1 hsome
  simp only [disableKey, hw, saveConfig]

/-- Reduction of the search tool's failure path once a key was acquired:
the catch block deactivates the re-acquired first available key exactly
when the error code is 403, then rebuilds the quota snapshot; the key
acquired at line 86 is the second component. -/
theorem executeFailure_eq_of_acquired (code : Option Int) (t n : String)
    (c : GlobalConfig) (k : ApiKeyState)
    (hacq : (getAvailableKey t n c).2 = some k) :
    executeFailure code t n c =
      (if code = some 403
       then (getQuotaStatus t n (disableKey k.id n (getAvailableKey t n c).1.1).1).1.1
       else (getQuotaStatus t n (getAvailableKey t n c).1.1).1.1,
       some k) := by
  by_cases hcode : code = some 403
  · simp only [executeFailure, hacq, getAvailableKey_post_stable, hcode, if_pos]
  · simp only [executeFailure, hacq, hcode, if_neg, if_false]

end GCM

/-- C4: when the external search call fails, the credential acquired for
that call is deactivated if and only if the failure carries status code
403; for every other failure (any other code or no code) no credential's
`isActive` flag changes, and in all failure cases no credential's
`dailyUsage` changes.  The post-state is compared record-by-record against
the store as it stood at the time of the call (after acquire's rollover
reset); ids are pairwise distinct per the store invariant. -/
theorem c4_deactivate_iff_403 (c : GlobalConfig) (today now : String)
    (code : Option Int) (k : ApiKeyState)
    (hnd : (c.keys.map (fun x => x.id)).Nodup)
    (hacq : (GCM.getAvailableKey today now c).2 = some k) :
    ((GCM.executeFailure code today now c).2 = some k) ∧
    ((GCM.executeFailure code today now c).1.keys.map (fun x => x.dailyUsage) =
      (GCM.getAvailableKey today now c).1.1.keys.map (fun x => x.dailyUsage)) ∧
    (∀ (j : Nat) (b : ApiKeyState),
      (GCM.getAvailableKey today now c).1.1.keys[j]? = some b →
        (GCM.executeFailure code today now c).1.keys[j]? =
          some (if code = some 403 ∧ b.id = k.id
                then { b with isActive := false } else b)) ∧
    (∀ (j : Nat) (b : ApiKeyState),
      (GCM.getAvailableKey today now c).1.1.keys[j]? = some b → b.id = k.id →
        ((GCM.executeFailure code today now c).1.keys[j]?.map (fun x => x.isActive) =
            some false ↔ code = some 403)) := by
  have hred := GCM.executeFailure_eq_of_acquired code today now c k hacq
  have hkfind : ((GCM.getAvailableKey today now c).1.1).keys.find? GCM.eligible =
      some k := hacq
  have hkmem : k ∈ ((GCM.getAvailableKey today now c).1.1).keys :=
    List.mem_of_find?_eq_some hkfind
  have hkelig : GCM.eligible k = true := List.find?_some hkfind
  have hkact : k.isActive = true := ((GCM.eligible_iff k).1 hkelig).1
  have hkeys1 : ((GCM.getAvailableKey today now c).1.1).keys =
      c.keys.map (GCM.resetKey today) := GCM.reset_fst_keys today now c
  have hnd1 : (((GCM.getAvailableKey today now c).1.1).keys.map (fun x => x.id)).Nodup := by
    rw [hkeys1, GCM.map_reset_field_id]
    exact hnd
  have hall1 : ∀ x ∈ ((GCM.getAvailableKey today now c).1.1).keys, x.lastReset = today := by
    rw [hkeys1]
    exact GCM.mem_map_reset_lastReset today c.keys
  obtain ⟨ik, hik⟩ := List.getElem?_of_mem hkmem
  by_cases hcode : code = some 403
  · have hdk : (GCM.disableKey k.id now ((GCM.getAvailableKey today now c).1.1)).1.keys =
        GCM.updateFirst (fun x => decide (x.id = k.id))
          (fun x => { x with isActive := false })
          ((GCM.getAvailableKey today now c).1.1).keys :=
      GCM.disableKey_fst_keys_of_mem k.id now _ ⟨k, hkmem, rfl⟩
    have hlast_d :
        (GCM.disableKey k.id now ((GCM.getAvailableKey today now c).1.1)).1.keys.map
          (fun x => x.lastReset) =
        ((GCM.getAvailableKey today now c).1.1).keys.map (fun x => x.lastReset) :=
      GCM.disableKey_map_field (fun x => x.lastReset) (fun x => rfl) k.id now _
    have hall_d : ∀ x ∈
        (GCM.disableKey k.id now ((GCM.getAvailableKey today now c).1.1)).1.keys,
        x.lastReset = today :=
      GCM.all_today_of_map_eq today _ _ hlast_d hall1
    have hq := GCM.reset_noop today now
      (GCM.disableKey k.id now ((GCM.getAvailableKey today now c).1.1)).1 hall_d
    have hpost : (GCM.executeFailure code today now c).1 =
        (GCM.disableKey k.id now ((GCM.getAvailableKey today now c).1.1)).1 := by
      rw [hred, if_pos hcode]
      show (GCM.resetDailyUsageIfNeeded today now _).1 = _
      rw [hq]
    have hpk : (fun x => decide (x.id = k.id)) k = true := by simp
    have hfirst := GCM.nodup_ids_first_match
      ((GCM.getAvailableKey today now c).1.1).keys ik k hnd1 hik
    have hset : (GCM.executeFailure code today now c).1.keys =
        ((GCM.getAvailableKey today now c).1.1).keys.set ik
          { k with isActive := false } := by
      rw [hpost, hdk, GCM.updateFirst_eq_set _ _ _ ik k hik hpk hfirst]
    refine ⟨?_, ?_, ?_, ?_⟩
    · rw [hred]
    · rw [hpost, hdk]
      exact GCM.updateFirst_map_field _ (fun x => { x with isActive := false })
        (fun x => x.dailyUsage) (fun x => rfl) _
    · intro j b hjb
      by_cases hj : j = ik
      · subst hj
        have hkb : k = b := Option.some.inj (hik.symm.trans hjb)
        subst hkb
        rw [hset, List.getElem?_set_self ((List.getElem?_eq_some_iff.1 hik).1),
          if_pos ⟨hcode, rfl⟩]
      · have hne : ¬ (code = some 403 ∧ b.id = k.id) := by
          intro hcontra
          exact hj (GCM.nodup_ids_index_eq _ hnd1 j ik b k hjb hik hcontra.2)
        rw [hset, List.getElem?_set_ne (fun hh => hj hh.symm), hjb, if_neg hne]
    · intro j b hjb hbid
      have hji : j = ik := GCM.nodup_ids_index_eq _ hnd1 j ik b k hjb hik hbid
      subst hji
      have hkb : k = b := Option.some.inj (hik.symm.trans hjb)
      subst hkb
      rw [hset, List.getElem?_set_self ((List.getElem?_eq_some_iff.1 hik).1)]
      simp [hcode]
  · have hpost : (GCM.executeFailure code today now c).1 =
        (GCM.getAvailableKey today now c).1.1 := by
      rw [hred, if_neg hcode]
      show (GCM.resetDailyUsageIfNeeded today now _).1 = _
      rw [GCM.reset_noop today now _ hall1]
    refine ⟨?_, ?_, ?_, ?_⟩
    · rw [hred]
    · rw [hpost]
    · intro j b hjb
      have hne : ¬ (code = some 403 ∧ b.id = k.id) := fun hcontra => hcode hcontra.1
      rw [hpost, hjb, if_neg hne]
    · intro j b hjb hbid
      have hji : j = ik := GCM.nodup_ids_index_eq _ hnd1 j ik b k hjb hik hbid
      subst hji
      have hkb : k = b := Option.some.inj (hik.symm.trans hjb)
      subst hkb
      rw [hpost, hik]
      simp [hcode, hkact]

/-- Witness for C4: a 403 failure on a one-key store deactivates the
acquired key (returned as the acquired credential) without touching usage. -/
theorem c4_deactivate_iff_403_witness :
    ((GCM.executeFailure (some 403) "2025-01-02" "T1"
        { keys := [{ id := "key_1", apiKey := "a", searchEngineId := "s",
                     dailyUsage := 0, dailyLimit := 100,
                     lastReset := "2025-01-02", isActive := true }],
          lastUpdated := "T0", version := "1.0.0" }).2 =
      some { id := "key_1", apiKey := "a", searchEngineId := "s",
             dailyUsage := 0, dailyLimit := 100,
             lastReset := "2025-01-02", isActive := true }) ∧
    ((GCM.executeFailure (some 403) "2025-01-02" "T1"
        { keys := [{ id := "key_1", apiKey := "a", searchEngineId := "s",
                     dailyUsage := 0, dailyLimit := 100,
                     lastReset := "2025-01-02", isActive := true }],
          lastUpdated := "T0", version := "1.0.0" }).1.keys.map
        (fun x => x.dailyUsage) =
      (GCM.getAvailableKey "2025-01-02" "T1"
        { keys := [{ id := "key_1", apiKey := "a", searchEngineId := "s",
                     dailyUsage := 0, dailyLimit := 100,
                     lastReset := "2025-01-02", isActive := true }],
          lastUpdated := "T0", version := "1.0.0" }).1.1.keys.map
        (fun x => x.dailyUsage)) :=
  ⟨(c4_deactivate_iff_403
      { keys := [{ id := "key_1", apiKey := "a", searchEngineId := "s",
                   dailyUsage := 0, dailyLimit := 100,
                   lastReset := "2025-01-02", isActive := true }],
        lastUpdated := "T0", version := "1.0.0" } "2025-01-02" "T1" (some 403)
      { id := "key_1", apiKey := "a", searchEngineId := "s",
        dailyUsage := 0, dailyLimit := 100,
        lastReset := "2025-01-02", isActive := true } (by decide) (by decide)).1,
   (c4_deactivate_iff_403
      { keys := [{ id := "key_1", apiKey := "a", searchEngineId := "s",
                   dailyUsage := 0, dailyLimit := 100,
                   lastReset := "2025-01-02", isActive := true }],
        lastUpdated := "T0", version := "1.0.0" } "2025-01-02" "T1" (some 403)
      { id := "key_1", apiKey := "a", searchEngineId := "s",
        dailyUsage := 0, dailyLimit := 100,
        lastReset := "2025-01-02", isActive := true } (by decide) (by decide)).2.1⟩

namespace GCM

theorem getAvailableKey_fst_keys (t n : String) (c : GlobalConfig) :
    (getAvailableKey t n c).1.1.keys = c.keys.map (resetKey t) :=
  reset_fst_keys t n c

theorem updateFirst_getElem? (p : ApiKeyState → Bool) (f : ApiKeyState → ApiKeyState) :
    ∀ (l : List ApiKeyState) (i : Nat),
      (updateFirst p f l)[i]? = l[i]? ∨ (updateFirst p f l)[i]? = (l[i]?).map f := by
  intro l
  induction l with
  | nil => intro i; left; rfl
  | cons x xs ih =>
      intro i
      unfold updateFirst
      by_cases hx : p x = true
      · rw [if_pos hx]
        cases i with
        | zero => right; simp
        | succ i => left; simp
      · rw [if_neg hx]
        cases i with
        | zero => left; simp
        | succ i =>
            cases ih i with
            | inl h => left; simpa using h
            | inr h => right; simpa using h

theorem applyOp_ids (t : String) (c : GlobalConfig) (op : StoreOp) :
    (applyOp t c op).keys.map (fun x => x.id) = c.keys.map (fun x => x.id) := by
  cases op with
  | select n =>
      show ((getAvailableKey t n c).1.1).keys.map _ = _
      rw [getAvailableKey_fst_keys, map_reset_field_id]
  | snapshot n =>
      show ((getQuotaStatus t n c).1.1).keys.map _ = _
      rw [getQuotaStatus_fst_keys, map_reset_field_id]
  | record id n => exact incrementUsage_map_field (fun x => x.id) (fun x => rfl) id n c
  | deactivate id r n => exact disableKey_map_field (fun x => x.id) (fun x => rfl) id n c

theorem applyOps_ids (t : String) (ops : List StoreOp) :
    ∀ c : GlobalConfig,
      (applyOps t ops c).keys.map (fun x => x.id) = c.keys.map (fun x => x.id) := by
  induction ops with
  | nil => intro c; rfl
  | cons op ops ih =>
      intro c
      exact (ih (applyOp t c op)).trans (applyOp_ids t c op)

theorem applyOp_preserves_exhausted (t : String) (c : GlobalConfig) (op : StoreOp)
    (i : Nat) (k : ApiKeyState) (hik : c.keys[i]? = some k)
    (hex : k.dailyLimit ≤ k.dailyUsage) (hday : k.lastReset = t) :
    ∃ k2, (applyOp t c op).keys[i]? = some k2 ∧
      k2.dailyLimit ≤ k2.dailyUsage ∧ k2.lastReset = t ∧ k2.id = k.id := by
  cases op with
  | select n =>
      refine ⟨k, ?_, hex, hday, rfl⟩
      show ((getAvailableKey t n c).1.1).keys[i]? = some k
      rw [getAvailableKey_fst_keys, List.getElem?_map, hik]
      simp [resetKey_eq_self t k hday]
  | snapshot n =>
      refine ⟨k, ?_, hex, hday, rfl⟩
      show ((getQuotaStatus t n c).1.1).keys[i]? = some k
      rw [getQuotaStatus_fst_keys, List.getElem?_map, hik]
      simp [resetKey_eq_self t k hday]
  | record id n =>
      show ∃ k2, ((incrementUsage id n c).1).keys[i]? = some k2 ∧ _
      cases hf : c.keys.find? (fun x => decide (x.id = id)) with
      | none =>
          simp only [incrementUsage, hf]
          exact ⟨k, hik, hex, hday, rfl⟩
      | some w =>
          simp only [incrementUsage, hf, saveConfig]
          cases updateFirst_getElem? (fun x => decide (x.id = id))
              (fun x => { x with dailyUsage := x.dailyUsage + 1 }) c.keys i with
          | inl h =>
              refine ⟨k, ?_, hex, hday, rfl⟩
              rw [h, hik]
          | inr h =>
              refine ⟨{ k with dailyUsage := k.dailyUsage + 1 }, ?_, ?_, hday, rfl⟩
              · rw [h, hik]
                rfl
              · exact Nat.le_trans hex (Nat.le_succ _)
  | deactivate id r n =>
      show ∃ k2, ((disableKey id n c).1).keys[i]? = some k2 ∧ _
      cases hf : c.keys.find? (fun x => decide (x.id = id)) with
      | none =>
          simp only [disableKey, hf]
          exact ⟨k, hik, hex, hday, rfl⟩
      | some w =>
          simp only [disableKey, hf, saveConfig]
          cases updateFirst_getElem? (fun x => decide (x.id = id))
              (fun x => { x with isActive := false }) c.keys i with
          | inl h =>
              refine ⟨k, ?_, hex, hday, rfl⟩
              rw [h, hik]
          | inr h =>
              refine ⟨{ k with isActive := false }, ?_, hex, hday, rfl⟩
              rw [h, hik]
              rfl

theorem applyOps_preserves_exhausted (t : String) (ops : List StoreOp) :
    ∀ (c : GlobalConfig) (i : Nat) (k : ApiKeyState), c.keys[i]? = some k →
      k.dailyLimit ≤ k.dailyUsage → k.lastReset = t →
      ∃ k2, (applyOps t ops c).keys[i]? = some k2 ∧
        k2.dailyLimit ≤ k2.dailyUsage ∧ k2.lastReset = t ∧ k2.id = k.id := by
  induction ops with
  | nil => intro c i k h1 h2 h3; exact ⟨k, h1, h2, h3, rfl⟩
  | cons op ops ih =>
      intro c i k h1 h2 h3
      obtain ⟨k2, hk2, hl2, hd2, hid2⟩ := applyOp_preserves_exhausted t c op i k h1 h2 h3
      obtain ⟨k3, hk3, hl3, hd3, hid3⟩ := ih (applyOp t c op) i k2 hk2 hl2 hd2
      exact ⟨k3, hk3, hl3, hd3, hid3.trans hid2⟩

theorem incrementUsage_set (c : GlobalConfig) (kid n : String) (i : Nat)
    (k : ApiKeyState) (hnd : (c.keys.map (fun x => x.id)).Nodup)
    (hik : c.keys[i]? = some k) (hkid : k.id = kid) :
    (incrementUsage kid n c).1.keys =
      c.keys.set i { k with dailyUsage := k.dailyUsage + 1 } := by
  have hpk : (fun x => decide (x.id = kid)) k = true := by simp [hkid]
  have hfirst' := nodup_ids_first_match c.keys i k hnd hik
  have hfirst : ∀ (j : Nat) (b : ApiKeyState), j < i → c.keys[j]? = some b →
      (fun x => decide (x.id = kid)) b = false := by
    intro j b hj hjb
    have := hfirst' j b hj hjb
    simpa [hkid] using this
  have hsome : (c.keys.find? (fun x => decide (x.id = kid))).isSome := by
    rw [List.find?_isSome]
    exact ⟨k, List.getElem?_mem hik, hpk⟩
  obtain ⟨w, hw⟩ := Option.isSome_iff_exists.1 hsome
  simp only [incrementUsage, hw, saveConfig]
  exact updateFirst_eq_set _ _ c.keys i k hik hpk hfirst

theorem replicate_increment_at (t kid nw : String) :
    ∀ (m : Nat) (c : GlobalConfig) (i : Nat) (k : ApiKeyState),
      (c.keys.map (fun x => x.id)).Nodup → c.keys[i]? = some k → k.id = kid →
      ((applyOps t (List.replicate m (StoreOp.record kid nw)) c).keys[i]? =
        some { k with dailyUsage := k.dailyUsage + m }) ∧
      ((applyOps t (List.replicate m (StoreOp.record kid nw)) c).keys.map
        (fun x => x.id) = c.keys.map (fun x => x.id)) := by
  intro m
  induction m with
  | zero =>
      intro c i k hnd hik hkid
      exact ⟨hik, rfl⟩
  | succ m ih =>
      intro c i k hnd hik hkid
      have hstep : (applyOp t c (StoreOp.record kid nw)).keys =
          c.keys.set i { k with dailyUsage := k.dailyUsage + 1 } :=
        incrementUsage_set c kid nw i k hnd hik hkid
      have hik2 : (applyOp t c (StoreOp.record kid nw)).keys[i]? =
          some { k with dailyUsage := k.dailyUsage + 1 } := by
        rw [hstep]
        exact List.getElem?_set_self ((List.getElem?_eq_some_iff.1 hik).1)
      have hnd2 : ((applyOp t c (StoreOp.record kid nw)).keys.map
          (fun x => x.id)).Nodup := by
        rw [applyOp_ids]
        exact hnd
      obtain ⟨h1, h2⟩ := ih (applyOp t c (StoreOp.record kid nw)) i
        { k with dailyUsage := k.dailyUsage + 1 } hnd2 hik2 hkid
      constructor
      · show (applyOps t (List.replicate m (StoreOp.record kid nw))
            (applyOp t c (StoreOp.record kid nw))).keys[i]? = _
        rw [h1]
        have harith : k.dailyUsage + 1 + m = k.dailyUsage + (m + 1) := by omega
        rw [harith]
      · show (applyOps t (List.replicate m (StoreOp.record kid nw))
            (applyOp t c (StoreOp.record kid nw))).keys.map (fun x => x.id) = _
        rw [h2, applyOp_ids]

theorem exhausted_not_selected (t n2 : String) (c2 : GlobalConfig) (i : Nat)
    (k2 : ApiKeyState) (hnd2 : (c2.keys.map (fun x => x.id)).Nodup)
    (hk2 : c2.keys[i]? = some k2) (hl2 : k2.dailyLimit ≤ k2.dailyUsage)
    (hd2 : k2.lastReset = t) :
    ∀ r, (getAvailableKey t n2 c2).2 = some r → r.id ≠ k2.id := by
  intro r hr hrid
  have hfind : ((getAvailableKey t n2 c2).1.1).keys.find? eligible = some r := hr
  have hrelig : eligible r = true := List.find?_some hfind
  have hrmem : r ∈ ((getAvailableKey t n2 c2).1.1).keys :=
    List.mem_of_find?_eq_some hfind
  obtain ⟨jr, hjr⟩ := List.getElem?_of_mem hrmem
  have hkeysr : ((getAvailableKey t n2 c2).1.1).keys = c2.keys.map (resetKey t) :=
    getAvailableKey_fst_keys t n2 c2
  have hk2r : ((getAvailableKey t n2 c2).1.1).keys[i]? = some k2 := by
    rw [hkeysr, List.getElem?_map, hk2]
    simp [resetKey_eq_self t k2 hd2]
  have hndr : (((getAvailableKey t n2 c2).1.1).keys.map (fun x => x.id)).Nodup := by
    rw [hkeysr, map_reset_field_id]
    exact hnd2
  have hji : jr = i := nodup_ids_index_eq _ hndr jr i r k2 hjr hk2r hrid
  subst hji
  have hrk : r = k2 := Option.some.inj (hjr.symm.trans hk2r)
  subst hrk
  have hlt := ((eligible_iff r).1 hrelig).2
  omega

theorem eligible_exists_selected (t n2 : String) (c2 : GlobalConfig)
    (h : ∃ b ∈ ((getAvailableKey t n2 c2).1.1).keys, eligible b = true) :
    ∃ r, (getAvailableKey t n2 c2).2 = some r := by
  have hs : ((getAvailableKey t n2 c2).2).isSome := by
    show (((getAvailableKey t n2 c2).1.1).keys.find? eligible).isSome
    rw [List.find?_isSome]
    obtain ⟨b, hb, he⟩ := h
    exact ⟨b, hb, he⟩
  exact Option.isSome_iff_exists.1 hs

end GCM

/-- C3: for a credential with `dailyLimit` L and `dailyUsage` 0 (ids
pairwise distinct per the store invariant), applying `recordUsage` to it L
times within one calendar day brings its `dailyUsage` to L, and from then
on — after any further same-day sequence of store operations —
`selectEligible()` never returns that credential, while it still returns
some credential whenever any record of the (reset) store is eligible. -/
theorem c3_after_limit_reached_never_selected (c : GlobalConfig)
    (today nw : String) (i L : Nat) (k : ApiKeyState) (ops : List GCM.StoreOp)
    (hnd : (c.keys.map (fun x => x.id)).Nodup)
    (hik : c.keys[i]? = some k)
    (h0 : k.dailyUsage = 0) (hL : k.dailyLimit = L) (hday : k.lastReset = today) :
    ((GCM.applyOps today (List.replicate L (GCM.StoreOp.record k.id nw)) c).keys[i]?.map
        (fun x => x.dailyUsage) = some L) ∧
    (∀ (n2 : String) (r : ApiKeyState),
      (GCM.getAvailableKey today n2 (GCM.applyOps today ops
        (GCM.applyOps today (List.replicate L (GCM.StoreOp.record k.id nw)) c))).2 =
          some r →
      r.id ≠ k.id) ∧
    (∀ n2 : String,
      (∃ b ∈ (GCM.getAvailableKey today n2 (GCM.applyOps today ops
          (GCM.applyOps today (List.replicate L (GCM.StoreOp.record k.id nw)) c))).1.1.keys,
        GCM.eligible b = true) →
      ∃ r, (GCM.getAvailableKey today n2 (GCM.applyOps today ops
        (GCM.applyOps today (List.replicate L (GCM.StoreOp.record k.id nw)) c))).2 =
          some r) := by
  obtain ⟨h1, hids1⟩ := GCM.replicate_increment_at today k.id nw L c i k hnd hik rfl
  refine ⟨?_, ?_, ?_⟩
  · rw [h1]
    simp [h0]
  · intro n2 r hr
    have hex1 : ({ k with dailyUsage := k.dailyUsage + L } : ApiKeyState).dailyLimit ≤
        ({ k with dailyUsage := k.dailyUsage + L } : ApiKeyState).dailyUsage := by
      simp [h0, hL]
    obtain ⟨k2, hk2, hl2, hd2, hid2⟩ := GCM.applyOps_preserves_exhausted today ops
      (GCM.applyOps today (List.replicate L (GCM.StoreOp.record k.id nw)) c) i
      { k with dailyUsage := k.dailyUsage + L } h1 hex1 hday
    have hnd2 : ((GCM.applyOps today ops
        (GCM.applyOps today (List.replicate L (GCM.StoreOp.record k.id nw)) c)).keys.map
        (fun x => x.id)).Nodup := by
      rw [GCM.applyOps_ids, hids1]
      exact hnd
    have hne := GCM.exhausted_not_selected today n2 _ i k2 hnd2 hk2 hl2 hd2 r hr
    intro hcontra
    exact hne (hcontra.trans hid2.symm)
  · intro n2 hb
    exact GCM.eligible_exists_selected today n2 _ hb

/-- Witness for C3: a two-key store, limit 2 on `key_1`; two `recordUsage`
calls reach the limit. -/
theorem c3_after_limit_reached_never_selected_witness :
    (GCM.applyOps "2025-01-02"
      (List.replicate 2 (GCM.StoreOp.record "key_1" "T2"))
      { keys := [{ id := "key_1", apiKey := "a", searchEngineId := "s",
                   dailyUsage := 0, dailyLimit := 2,
                   lastReset := "2025-01-02", isActive := true },
                 { id := "key_2", apiKey := "b", searchEngineId := "s",
                   dailyUsage := 0, dailyLimit := 100,
                   lastReset := "2025-01-02", isActive := true }],
        lastUpdated := "T0", version := "1.0.0" }).keys[0]?.map
      (fun x => x.dailyUsage) = some 2 :=
  (c3_after_limit_reached_never_selected
    { keys := [{ id := "key_1", apiKey := "a", searchEngineId := "s",
                 dailyUsage := 0, dailyLimit := 2,
                 lastReset := "2025-01-02", isActive := true },
               { id := "key_2", apiKey := "b", searchEngineId := "s",
                 dailyUsage := 0, dailyLimit := 100,
                 lastReset := "2025-01-02", isActive := true }],
      lastUpdated := "T0", version := "1.0.0" } "2025-01-02" "T2" 0 2
    { id := "key_1", apiKey := "a", searchEngineId := "s",
      dailyUsage := 0, dailyLimit := 2,
      lastReset := "2025-01-02", isActive := true } []
    (by decide) (by decide) (by decide) (by decide) (by decide)).1
